import Mathlib

/-!
Shallow embedding of the chat-worker core (`src/index.ts`): the conversation
sanitizer `buildModelInput`, the response-text extraction logic, and the
catch-block gateway-error classifier of `handleChatRequest`.

JavaScript runtime values that flow through the code (message contents,
inference results, caught errors, parsed JSON) are modelled by the inductive
type `JVal`; `undefined` is modelled at the `Option` level (a missing field
reads as `none`).
-/

/-- Model of a JSON-like JavaScript value. Numbers are modelled as integers
(the only numeric comparisons in the code are against the integer gateway
codes 2016 and 2017). -/
inductive JVal where
  | null : JVal
  | bool : Bool → JVal
  | num : Int → JVal
  | str : String → JVal
  | arr : List JVal → JVal
  | obj : List (String × JVal) → JVal
deriving Repr

/-- Property access `v.k` in JavaScript: fields exist only on objects; on every
other value (or when the key is absent) the read yields `undefined`, modelled
as `none`. -/
def JVal.getField : JVal → String → Option JVal
  | JVal.obj fs, k => (fs.find? (fun p => p.fst == k)).map Prod.snd
  | _, _ => none

/-- JavaScript truthiness of a modelled value. -/
def jvTruthy : JVal → Bool
  | JVal.null => false
  | JVal.bool b => b
  | JVal.num n => !(n == 0)
  | JVal.str s => !(s == "")
  | JVal.arr _ => true
  | JVal.obj _ => true

/-- Whether `typeof v === "object"` holds in JavaScript (true for `null`,
arrays and plain objects). -/
def typeofObject : JVal → Bool
  | JVal.null => true
  | JVal.arr _ => true
  | JVal.obj _ => true
  | _ => false

mutual
/-- JavaScript string coercion `String(v)` as used by template literals. -/
def jsToString : JVal → String
  | JVal.str s => s
  | JVal.num n => toString n
  | JVal.bool b => cond b "true" "false"
  | JVal.null => "null"
  | JVal.arr xs => jsJoinList xs
  | JVal.obj _ => "[object Object]"
termination_by structural v => v

/-- `Array.prototype.toString` (`join(",")`): elements coerced with
`String(...)`, except `null`, which joins as the empty string. -/
def jsJoinList : List JVal → String
  | [] => ""
  | [JVal.null] => ""
  | [x] => jsToString x
  | JVal.null :: xs => "," ++ jsJoinList xs
  | x :: xs => jsToString x ++ "," ++ jsJoinList xs
termination_by structural xs => xs
end

/-- Modelled from the spec: the `ChatMessage` shape imported from
`./types` (not present under `src/`): a role tag plus a content value.
`content` is a `JVal` because `buildModelInput` explicitly guards with
`typeof m.content === "string"`, so non-string contents must be
representable. -/
structure ChatMessage where
  role : String
  content : JVal
deriving Repr

/-- Constant `SYSTEM_PROMPT` from `src/index.ts`. -/
def SYSTEM_PROMPT : String :=
  "You are a helpful, friendly assistant. Provide concise and accurate responses."

/-- Constant `SAFETY_SHIM` from `src/index.ts`. -/
def SAFETY_SHIM : String :=
  "If a user asks for illegal, violent, or harmful instructions, refuse briefly and suggest safer, educational alternatives."

/-- Constant `AI_GATEWAY_ID` from `src/index.ts`. -/
def AI_GATEWAY_ID : String := "new-gateway"

/-- The `instructions` string built at the top of `buildModelInput`. -/
def modelInstructions : String := SYSTEM_PROMPT ++ "\n\nSafety: " ++ SAFETY_SHIM

/-- Contiguous-sublist test on character lists. -/
def charsInfix (pat : List Char) : List Char → Bool
  | [] => pat.isEmpty
  | c :: cs => pat.isPrefixOf (c :: cs) || charsInfix pat cs

/-- Case-insensitive substring test, modelling `/pat/i.test(s)` for a plain
literal pattern. -/
def containsCaseInsensitive (s pat : String) : Bool :=
  charsInfix (pat.data.map Char.toLower) (s.data.map Char.toLower)

/-- The `looksLikeGuardrailNotice` test of `buildModelInput`: an assistant
message whose string content matches `/blocked by guardrails/i`. -/
def looksLikeGuardrailNotice (m : ChatMessage) : Bool :=
  m.role == "assistant" &&
    (match m.content with
     | JVal.str s => containsCaseInsensitive s "blocked by guardrails"
     | _ => false)

/-- The block-list test of `buildModelInput`: a user message whose content is
a string present in `blockedUserContents`. -/
def isBlockedUser (blocked : List String) (m : ChatMessage) : Bool :=
  m.role == "user" &&
    (match m.content with
     | JVal.str s => blocked.contains s
     | _ => false)

/-- One iteration of the cleaning loop of `buildModelInput`, acting on the
accumulator `cleaned`. -/
def cleanStep (blocked : List String) (cleaned : List ChatMessage) (m : ChatMessage) : List ChatMessage :=
  if m.role == "system" then cleaned
  else if isBlockedUser blocked m then cleaned
  else if looksLikeGuardrailNotice m then
    match cleaned.getLast? with
    | some last => if last.role == "user" then cleaned.dropLast else cleaned
    | none => cleaned
  else cleaned ++ [m]

/-- The full cleaning pass of `buildModelInput` over the raw history. -/
def sanitizePass (blocked : List String) (raw : List ChatMessage) : List ChatMessage :=
  raw.foldl (cleanStep blocked) []

/-- The windowing step of `buildModelInput`:
`cleaned.length > 16 ? cleaned.slice(cleaned.length - 16) : cleaned`. -/
def windowTo16 (cleaned : List ChatMessage) : List ChatMessage :=
  if 16 < cleaned.length then cleaned.drop (cleaned.length - 16) else cleaned

/-- The per-message renderer of the formatting step: user and assistant
messages get a capitalized-role prefix, everything else renders as `""`. -/
def renderMsg (m : ChatMessage) : String :=
  if m.role == "user" then "User: " ++ jsToString m.content
  else if m.role == "assistant" then "Assistant: " ++ jsToString m.content
  else ""

/-- The `conversationText` expression of `buildModelInput`: render each
windowed message, `filter(Boolean)` (drop empty strings), `join("\n\n")`. -/
def conversationText (w : List ChatMessage) : String :=
  String.intercalate "\n\n" ((w.map renderMsg).filter (fun s => !(s == "")))

/-- The formatting step of `buildModelInput`: a single user message is
returned verbatim as the input, otherwise the joined transcript is used. -/
def formatInput (w : List ChatMessage) : JVal :=
  match w with
  | [m] => if m.role == "user" then m.content else JVal.str (conversationText [m])
  | _ => JVal.str (conversationText w)

/-- Result shape of `buildModelInput`. The `input` field is a `JVal` because
the single-user-message branch returns `windowed[0].content` verbatim, which
need not be a string. -/
structure ModelInput where
  instructions : String
  input : JVal
deriving Repr

/-- The sanitizer `buildModelInput` of `src/index.ts`: clean, window to the
last 16 entries, format. The block set is modelled as the list of strings the
JS `Set` was built from (membership testing only). -/
def buildModelInput (raw : List ChatMessage) (blockedUserContents : List String) : ModelInput :=
  { instructions := modelInstructions
  , input := formatInput (windowTo16 (sanitizePass blockedUserContents raw)) }

/-- Pure tag test: whether an element's `type` field equals `t` (a null
element simply fails the test). This is not the callback the extraction code
runs — that is `typeTagTest` below, whose property read throws on null — but
the pure test characterizing which element a find that completes without
throwing returns. -/
def isTypeTag (t : String) (it : JVal) : Bool :=
  match it.getField "type" with
  | some (JVal.str s) => s == t
  | _ => false

/-- The find callback `(item) => item.type === t` of the extraction code:
reading `.type` off a `null` element throws a TypeError, modelled as
`Except.error ()`; on any other element the strict comparison is evaluated
(property reads on non-null primitives yield `undefined`, hence `false`). -/
def typeTagTest (t : String) (it : JVal) : Except Unit Bool :=
  match it with
  | JVal.null => Except.error ()
  | _ =>
    Except.ok
      (match it.getField "type" with
       | some (JVal.str s) => s == t
       | _ => false)

/-- `Array.prototype.find` with a callback that may throw: elements are
visited left to right and a thrown TypeError aborts the search. -/
def findE (p : JVal → Except Unit Bool) : List JVal → Except Unit (Option JVal)
  | [] => Except.ok none
  | it :: rest =>
    match p it with
    | Except.error e => Except.error e
    | Except.ok true => Except.ok (some it)
    | Except.ok false => findE p rest

/-- The structured-envelope path of the extraction code: dig
`resp.output` (must be an array), find the first `type === "message"` item,
find the first `type === "output_text"` item of its `content` array, and keep
its `text` field when truthy. A TypeError thrown by either find callback (on
a null array element) propagates out of this code. Returns `Except.ok none`
exactly when the imperative code completes this block leaving `responseText`
empty. -/
def structuredText (resp : JVal) : Except Unit (Option JVal) :=
  match resp.getField "output" with
  | some (JVal.arr items) =>
    match findE (typeTagTest "message") items with
    | Except.error e => Except.error e
    | Except.ok (some messageOutput) =>
      match messageOutput.getField "content" with
      | some (JVal.arr contentItems) =>
        match findE (typeTagTest "output_text") contentItems with
        | Except.error e => Except.error e
        | Except.ok (some textContent) =>
          match textContent.getField "text" with
          | some tv => Except.ok (if jvTruthy tv then some tv else none)
          | none => Except.ok none
        | Except.ok none => Except.ok none
      | _ => Except.ok none
    | Except.ok none => Except.ok none
  | _ => Except.ok none

/-- Read field `k` of `resp` and keep it only when truthy, modelling the
`if (resp.k)` fallback guards. -/
def truthyField (resp : JVal) (k : String) : Option JVal :=
  match resp.getField k with
  | some v => if jvTruthy v then some v else none
  | none => none

/-- JavaScript index access `v[0]`. -/
def jvIndex0 : JVal → Option JVal
  | JVal.arr xs => xs.head?
  | JVal.obj fs => (fs.find? (fun p => p.fst == "0")).map Prod.snd
  | JVal.str s =>
    match s.data with
    | [] => none
    | c :: _ => some (JVal.str (String.mk [c]))
  | _ => none

/-- The `resp.choices && resp.choices[0]?.message?.content` fallback. -/
def choicesText (resp : JVal) : Option JVal :=
  match resp.getField "choices" with
  | some ch =>
    if jvTruthy ch then
      match jvIndex0 ch with
      | some c0 =>
        match c0.getField "message" with
        | some mv =>
          match mv.getField "content" with
          | some v => if jvTruthy v then some v else none
          | none => none
        | none => none
      | none => none
    else none
  | none => none

/-- The `resp.result && resp.result.response` fallback. -/
def resultResponseText (resp : JVal) : Option JVal :=
  match resp.getField "result" with
  | some rv =>
    if jvTruthy rv then
      match rv.getField "response" with
      | some v => if jvTruthy v then some v else none
      | none => none
    else none
  | none => none

/-- Sentinel returned when no extraction step finds text. -/
def parseErrorSentinel : String := "Error: Could not parse AI response"

/-- The response-text extraction logic of `handleChatRequest`
(`src/index.ts` lines 215-254), as a function of the awaited `aiResponse`
value: `Except.ok` carries the final value of the `responseText` variable,
while `Except.error` is a TypeError thrown by a find callback of the
structured path, which escapes this code (and lands in the catch block). -/
def extractText (aiResponse : JVal) : Except Unit JVal :=
  match aiResponse with
  | JVal.str s => Except.ok (JVal.str s)
  | v =>
    if jvTruthy v && typeofObject v then
      match structuredText v with
      | Except.error e => Except.error e
      | Except.ok (some t) => Except.ok t
      | Except.ok none =>
        Except.ok
          (match truthyField v "response" with
           | some r => r
           | none =>
             match truthyField v "content" with
             | some r => r
             | none =>
               match choicesText v with
               | some r => r
               | none =>
                 match resultResponseText v with
                 | some r => r
                 | none => JVal.str parseErrorSentinel)
    else Except.ok (JVal.str "")

/-- Line-terminator characters, which `.` in a JavaScript regex does not
match. -/
def isLineTerminator (c : Char) : Bool :=
  c == '\n' || c == '\r' || c == '\u2028' || c == '\u2029'

/-- The regex match `message.match(/\x7b.*\x7d/)`: scanning left to right for
an opening brace, the match runs greedily to the last closing brace reachable
without crossing a line terminator; if an opening brace has no such closing
brace, scanning continues. Returns the matched character run. -/
def jsonBraceMatch : List Char → Option (List Char)
  | [] => none
  | c :: cs =>
    if c == '\x7b' then
      let seg := cs.takeWhile (fun d => !(isLineTerminator d))
      let kept := (seg.reverse.dropWhile (fun d => !(d == '\x7d'))).reverse
      match kept with
      | [] => jsonBraceMatch cs
      | _ => some ('\x7b' :: kept)
    else jsonBraceMatch cs

/-- String-level wrapper for the embedded-JSON regex match. -/
def matchEmbedded (s : String) : Option String :=
  (jsonBraceMatch s.data).map String.mk

/-- The gateway-error recovery of the catch block: if the caught value is a
truthy `object`, its `message` field is a truthy string, the message contains
a brace-delimited JSON fragment, that fragment parses, and the parsed value
has an array `error` field, then `gatewayError` is that array's first element
(`none` models both `null` and `undefined`). `JSON.parse` is the platform
builtin, passed in as a function returning `none` on a parse failure (the
code swallows the thrown exception). -/
def classifyGatewayError (parse : String → Option JVal) (error : JVal) : Option JVal :=
  match error with
  | JVal.obj _ | JVal.arr _ =>
    match error.getField "message" with
    | some (JVal.str msg) =>
      if msg == "" then none
      else
        match matchEmbedded msg with
        | some jsonStr =>
          match parse jsonStr with
          | some parsed =>
            match parsed.getField "error" with
            | some (JVal.arr xs) => xs.head?
            | _ => none
          | none => none
        | none => none
    | _ => none
  | _ => none

/-- Shape of the JSON error responses produced by the catch block. -/
structure HttpResp where
  status : Nat
  error : String
  errorType : Option String
  details : Option String
  usingGateway : Option Bool
deriving Repr, DecidableEq

/-- Gateway-configured `details` text of the 2016 (prompt blocked) response. -/
def promptBlockedDetailsGateway : String :=
  "Your message was blocked by your organization\x27s AI Gateway security policy. This may be due to content that violates safety guidelines including: hate speech, violence, self-harm, explicit content, or other harmful material."

/-- Non-gateway `details` text of the 2016 (prompt blocked) response. -/
def promptBlockedDetailsPlain : String :=
  "Your message was blocked due to security policy."

/-- Gateway-configured `details` text of the 2017 (response blocked) response. -/
def responseBlockedDetailsGateway : String :=
  "The AI\x27s response was blocked by your organization\x27s AI Gateway security policy. The model attempted to generate content that violates safety guidelines. Please rephrase your question or try a different topic."

/-- Non-gateway `details` text of the 2017 (response blocked) response. -/
def responseBlockedDetailsPlain : String :=
  "The AI\x27s response was blocked due to security policy."

/-- The HTTP 400 response returned for gateway error code 2016. -/
def promptBlockedResp : HttpResp :=
  { status := 400
  , error := "Prompt Blocked by Security Policy"
  , errorType := some "prompt_blocked"
  , details := some (if !(AI_GATEWAY_ID == "") then promptBlockedDetailsGateway else promptBlockedDetailsPlain)
  , usingGateway := some (!(AI_GATEWAY_ID == "")) }

/-- The HTTP 400 response returned for gateway error code 2017. -/
def responseBlockedResp : HttpResp :=
  { status := 400
  , error := "Response Blocked by Security Policy"
  , errorType := some "response_blocked"
  , details := some (if !(AI_GATEWAY_ID == "") then responseBlockedDetailsGateway else responseBlockedDetailsPlain)
  , usingGateway := some (!(AI_GATEWAY_ID == "")) }

/-- The generic HTTP 500 fallback response of the catch block. -/
def genericErrorResp : HttpResp :=
  { status := 500
  , error := "Failed to process request"
  , errorType := none
  , details := none
  , usingGateway := none }

/-- The whole catch block of `handleChatRequest` (`src/index.ts` lines
267-330): recover a gateway error from the caught value, then branch on its
`code` field; anything but a recovered truthy element with code 2016 or 2017
yields the generic 500 response. -/
def handleCatch (parse : String → Option JVal) (error : JVal) : HttpResp :=
  match classifyGatewayError parse error with
  | some g =>
    if jvTruthy g then
      match g.getField "code" with
      | some (JVal.num n) =>
        if n == 2016 then promptBlockedResp
        else if n == 2017 then responseBlockedResp
        else genericErrorResp
      | _ => genericErrorResp
    else genericErrorResp
  | none => genericErrorResp

/-- Predicate: a message passes every skip test of the cleaning loop (it is
not a system message, not a blocked user message, not a guardrail notice). -/
def okMsg (blocked : List String) (m : ChatMessage) : Prop :=
  m.role ≠ "system" ∧ isBlockedUser blocked m = false ∧ looksLikeGuardrailNotice m = false

/-- Transcript built the way the spec words it: keep only the entries whose
role is `user` or `assistant`, render each with its capitalized-role prefix,
join with a blank line. (`buildModelInput` instead renders every entry and
then filters out empty strings; the two are compared in the formatting
theorem.) -/
def specTranscript (w : List ChatMessage) : String :=
  String.intercalate "\n\n"
    ((w.filter (fun m => m.role == "user" || m.role == "assistant")).map renderMsg)

/-- Formatter following the words of the spec, to be compared with
`formatInput`. -/
def formatInputSpec (w : List ChatMessage) : JVal :=
  match w with
  | [m] => if m.role == "user" then m.content else JVal.str (specTranscript [m])
  | _ => JVal.str (specTranscript w)

/-- Ordered fallback chain of the extraction code, as the spec words it: the
first truthy value among `resp.response`, `resp.content`,
`resp.choices[0].message.content` and `resp.result.response`. -/
def fallbackChainSpec (resp : JVal) : Option JVal :=
  (truthyField resp "response").orElse (fun _ =>
    (truthyField resp "content").orElse (fun _ =>
      (choicesText resp).orElse (fun _ => resultResponseText resp)))

/-- Structured path exactly as the claim words it, as a pure total function:
locate the first `output` element whose `type` field equals "message", then
the first of its `content` elements whose `type` equals "output_text", and
return its `text` field when truthy. Unlike the `structuredText` the code
runs, this never throws — stated separately so the claim's description can be
compared against the program, which instead throws a TypeError when a find
callback meets a null element. -/
def structuredTextSpec (resp : JVal) : Option JVal :=
  match resp.getField "output" with
  | some (JVal.arr items) =>
    match items.find? (isTypeTag "message") with
    | some messageOutput =>
      match messageOutput.getField "content" with
      | some (JVal.arr contentItems) =>
        match contentItems.find? (isTypeTag "output_text") with
        | some textContent =>
          match textContent.getField "text" with
          | some tv => if jvTruthy tv then some tv else none
          | none => none
        | none => none
      | _ => none
    | none => none
  | _ => none

/-- Concrete history of 20 alternating plain user/assistant messages. -/
def exHistory20 : List ChatMessage :=
  (List.range 10).flatMap (fun i =>
    [⟨"user", JVal.str ("u" ++ toString i)⟩, ⟨"assistant", JVal.str ("a" ++ toString i)⟩])

/-- Concrete embedded gateway-error JSON fragment used by witnesses. -/
def wJson : String := "\x7b\"error\":[\x7b\"code\":2016,\"message\":\"Prompt blocked\"\x7d]\x7d"

/-- Concrete caught-error message wrapping `wJson` in free text. -/
def wMessage : String := "InferenceUpstreamError 400: " ++ wJson

/-- Concrete caught error value used by witnesses. -/
def wErr : JVal := JVal.obj [("message", JVal.str wMessage)]

/-- First element of the parsed `error` array of `wJson`. -/
def wGatewayElem : JVal := JVal.obj [("code", JVal.num 2016), ("message", JVal.str "Prompt blocked")]

/-- Parse of `wJson`. -/
def wParsed : JVal := JVal.obj [("error", JVal.arr [wGatewayElem])]

/-- Concrete model of `JSON.parse` defined on the single fragment the
witnesses feed it. -/
def wParse : String → Option JVal := fun s => if s == wJson then some wParsed else none

/-- Concrete structured (Responses API) inference result used by witnesses. -/
def exStructuredResp : JVal :=
  JVal.obj [("output", JVal.arr
    [ JVal.obj [("type", JVal.str "reasoning")]
    , JVal.obj [("type", JVal.str "message"), ("content", JVal.arr
        [JVal.obj [("type", JVal.str "output_text"), ("text", JVal.str "answer")]])]])]

/-- Concrete legacy-shaped inference result used by witnesses. -/
def exLegacyResp : JVal := JVal.obj [("response", JVal.str "legacy")]

/-- Concrete inference result whose `output` array starts with a null element
before a well-formed message item: the find callback throws on it. -/
def exNullStructuredResp : JVal :=
  JVal.obj [("output", JVal.arr
    [ JVal.null
    , JVal.obj [("type", JVal.str "message"), ("content", JVal.arr
        [JVal.obj [("type", JVal.str "output_text"), ("text", JVal.str "answer")]])]])]

/-- Concrete inference result whose `output` array is just a null element. -/
def exNullOnly : JVal := JVal.obj [("output", JVal.arr [JVal.null])]

/-- Concrete user message used by the windowing/displacement examples. -/
def oldUserMsg : ChatMessage := ⟨"user", JVal.str "old question"⟩

/-- Concrete message with a role that is none of system, user, assistant. -/
def toolMsg : ChatMessage := ⟨"tool", JVal.str "tool output"⟩

/-- Concrete malformed message: a user message whose content is a number. -/
def malformedMsg : ChatMessage := ⟨"user", JVal.num 42⟩

/-- Condition under which the catch block classifies a caught error as a
policy block with the given code: the error is an object whose string
`message` field contains a brace-delimited JSON substring that parses to a
value whose `error` field is an array whose first element carries
`code = code`. -/
def policyCond (parse : String → Option JVal) (err : JVal) (code : Int) : Prop :=
  ∃ msg s p g rest,
    err.getField "message" = some (JVal.str msg)
    ∧ matchEmbedded msg = some s
    ∧ parse s = some p
    ∧ p.getField "error" = some (JVal.arr (g :: rest))
    ∧ g.getField "code" = some (JVal.num code)

theorem cleanStep_skip (blocked : List String) (c : List ChatMessage) (m : ChatMessage)
    (h : (m.role == "system" || isBlockedUser blocked m) = true) :
    cleanStep blocked c m = c := by
  unfold cleanStep
  rcases (by simpa using h : (m.role == "system") = true ∨ isBlockedUser blocked m = true)
    with h1 | h2
  · simp [h1]
  · cases h1 : (m.role == "system") <;> simp [h1, h2]

theorem foldl_cleanStep_filter (blocked : List String) (raw : List ChatMessage) :
    ∀ c, List.foldl (cleanStep blocked) c
        (raw.filter (fun m => !(m.role == "system" || isBlockedUser blocked m)))
      = List.foldl (cleanStep blocked) c raw := by
  induction raw with
  | nil => intro c; rfl
  | cons m rest ih =>
    intro c
    cases hm : (m.role == "system" || isBlockedUser blocked m)
    · simp only [List.filter_cons, hm, Bool.not_false, if_pos, List.foldl_cons]
      exact ih (cleanStep blocked c m)
    · simp only [List.filter_cons, hm, Bool.not_true, Bool.false_eq_true, if_false,
        List.foldl_cons, cleanStep_skip blocked c m hm]
      exact ih c

theorem mem_cleanStep {blocked : List String} {c : List ChatMessage} {m x : ChatMessage}
    (hx : x ∈ cleanStep blocked c m) : x ∈ c ∨ (x = m ∧ okMsg blocked m) := by
  unfold cleanStep at hx
  cases h1 : (m.role == "system") with
  | true => rw [if_pos h1] at hx; exact Or.inl hx
  | false =>
  rw [if_neg (by simp [h1])] at hx
  cases h2 : isBlockedUser blocked m with
  | true => rw [if_pos h2] at hx; exact Or.inl hx
  | false =>
  rw [if_neg (by simp [h2])] at hx
  cases h3 : looksLikeGuardrailNotice m with
  | true =>
    rw [if_pos h3] at hx
    cases hl : c.getLast? with
    | none => rw [hl] at hx; exact Or.inl hx
    | some last =>
      simp only [hl] at hx
      cases h4 : (last.role == "user") with
      | true => rw [if_pos h4] at hx; exact Or.inl (List.dropLast_subset c hx)
      | false => rw [if_neg (by simp [h4])] at hx; exact Or.inl hx
  | false =>
    rw [if_neg (by simp [h3])] at hx
    rcases List.mem_append.mp hx with h | h
    · exact Or.inl h
    · exact Or.inr ⟨List.mem_singleton.mp h, ne_of_beq_false h1, h2, h3⟩

theorem foldl_cleanStep_ok (blocked : List String) (raw : List ChatMessage) :
    ∀ c : List ChatMessage, (∀ y ∈ c, okMsg blocked y) →
      ∀ x ∈ List.foldl (cleanStep blocked) c raw, okMsg blocked x := by
  induction raw with
  | nil => intro c hc x hx; exact hc x hx
  | cons m rest ih =>
    intro c hc x hx
    refine ih (cleanStep blocked c m) ?_ x hx
    intro y hy
    rcases mem_cleanStep hy with h | ⟨rfl, hok⟩
    · exact hc y h
    · exact hok

theorem sanitizePass_ok (blocked : List String) (raw : List ChatMessage) :
    ∀ x ∈ sanitizePass blocked raw, okMsg blocked x :=
  foldl_cleanStep_ok blocked raw [] (by intro y hy; cases hy)

theorem mem_windowTo16 {l : List ChatMessage} {x : ChatMessage} (hx : x ∈ windowTo16 l) :
    x ∈ l := by
  unfold windowTo16 at hx
  by_cases h : 16 < l.length
  · rw [if_pos h] at hx; exact List.drop_subset _ l hx
  · rw [if_neg h] at hx; exact hx

theorem windowTo16_spec (c : List ChatMessage) :
    (windowTo16 c).length ≤ 16 ∧ windowTo16 c <:+ c
      ∧ (16 < c.length → windowTo16 c = c.drop (c.length - 16)) := by
  unfold windowTo16
  by_cases h : 16 < c.length
  · rw [if_pos h]
    refine ⟨?_, List.drop_suffix _ c, fun _ => rfl⟩
    rw [List.length_drop]
    omega
  · rw [if_neg h]
    exact ⟨by omega, List.suffix_refl c, fun hc => absurd hc h⟩

theorem renderMsg_ne_empty {m : ChatMessage}
    (h : (m.role == "user" || m.role == "assistant") = true) :
    (renderMsg m == "") = false := by
  have key : ∀ p s : String, 0 < p.length → ((p ++ s == "") = false) := by
    intro p s hp
    refine beq_eq_false_iff_ne.mpr fun he => ?_
    have hlen := congrArg String.length he
    rw [String.length_append] at hlen
    have h0 : ("" : String).length = 0 := rfl
    rw [h0] at hlen
    omega
  unfold renderMsg
  split
  · exact key _ _ (by decide)
  · split
    · exact key _ _ (by decide)
    · next hu ha =>
      rcases (by simpa using h : (m.role == "user") = true ∨ (m.role == "assistant") = true)
        with h1 | h1
      · exact absurd h1 hu
      · exact absurd h1 ha

theorem renderMsg_empty {m : ChatMessage} (h1 : (m.role == "user") = false)
    (h2 : (m.role == "assistant") = false) : renderMsg m = "" := by
  unfold renderMsg
  rw [if_neg (by simp [h1]), if_neg (by simp [h2])]

theorem filter_render_eq (w : List ChatMessage) :
    (w.map renderMsg).filter (fun s => !(s == ""))
      = (w.filter (fun m => m.role == "user" || m.role == "assistant")).map renderMsg := by
  induction w with
  | nil => rfl
  | cons m rest ih =>
    cases hm : (m.role == "user" || m.role == "assistant")
    · have hsplit : (m.role == "user") = false ∧ (m.role == "assistant") = false := by
        simpa using hm
      have he : renderMsg m = "" := renderMsg_empty hsplit.1 hsplit.2
      simp only [List.map_cons, List.filter_cons, hm, he]
      simpa using ih
    · have hne := renderMsg_ne_empty hm
      simp only [List.map_cons, List.filter_cons, hm, hne]
      simpa using ih

theorem conversationText_eq_spec (w : List ChatMessage) :
    conversationText w = specTranscript w := by
  unfold conversationText specTranscript
  rw [filter_render_eq]

theorem formatInput_eq_spec (w : List ChatMessage) : formatInput w = formatInputSpec w := by
  cases w with
  | nil => simp [formatInput, formatInputSpec, conversationText_eq_spec]
  | cons m t =>
    cases t with
    | nil => simp [formatInput, formatInputSpec, conversationText_eq_spec]
    | cons m2 t2 => simp [formatInput, formatInputSpec, conversationText_eq_spec]

/-- C1: for every raw history and block set, the input produced by
`buildModelInput` has no contribution from system-role messages nor from
user-role messages whose content lies in the block set: deleting all such
messages from the history leaves the result unchanged, and no windowed
message (the only messages the input is built from) is of either kind. -/
theorem claim1_no_system_no_blocked_contribution (raw : List ChatMessage) (blocked : List String) :
    buildModelInput raw blocked
        = buildModelInput
            (raw.filter (fun m => !(m.role == "system" || isBlockedUser blocked m))) blocked
      ∧ ∀ m ∈ windowTo16 (sanitizePass blocked raw),
          m.role ≠ "system" ∧ ¬(m.role = "user" ∧ ∃ s, m.content = JVal.str s ∧ s ∈ blocked) := by
  constructor
  · unfold buildModelInput sanitizePass
    rw [foldl_cleanStep_filter]
  · intro m hm
    have hok := sanitizePass_ok blocked raw m (mem_windowTo16 hm)
    refine ⟨hok.1, ?_⟩
    rintro ⟨hrole, s, hcontent, hmem⟩
    have hb : isBlockedUser blocked m = true := by
      unfold isBlockedUser
      rw [hcontent, hrole]
      simpa using hmem
    rw [hok.2.1] at hb
    cases hb

/-- Witness for C1 at a concrete history: the surviving user message in the
window is neither a system message nor block-listed. -/
theorem claim1_witness :
    (⟨"user", JVal.str "hi"⟩ : ChatMessage).role ≠ "system"
      ∧ ¬((⟨"user", JVal.str "hi"⟩ : ChatMessage).role = "user"
            ∧ ∃ s, (⟨"user", JVal.str "hi"⟩ : ChatMessage).content = JVal.str s ∧ s ∈ ["bad"]) :=
  (claim1_no_system_no_blocked_contribution
      [⟨"system", JVal.str "sys"⟩, ⟨"user", JVal.str "bad"⟩, ⟨"user", JVal.str "hi"⟩]
      ["bad"]).2
    ⟨"user", JVal.str "hi"⟩ (List.mem_singleton.mpr rfl)

/-- C2: an assistant message matching the guardrail-notice test is never
appended to the cleaned sequence; at the step where one is met, the last
already-appended entry is popped exactly when its role is `user`
(a destructive pop of one entry, a no-op otherwise, including on an empty
accumulator); the two concrete examples of the spec both clean to the empty
sequence. -/
theorem claim2_guardrail_notice_pairing :
    (∀ (blocked : List String) (raw : List ChatMessage) (m : ChatMessage),
        m ∈ sanitizePass blocked raw → looksLikeGuardrailNotice m = false)
    ∧ (∀ (blocked : List String) (c : List ChatMessage) (m : ChatMessage),
        looksLikeGuardrailNotice m = true →
          ((∃ last, c.getLast? = some last ∧ last.role = "user") →
              cleanStep blocked c m = c.dropLast)
          ∧ ((∀ last, c.getLast? = some last → last.role ≠ "user") →
              cleanStep blocked c m = c))
    ∧ sanitizePass []
        [⟨"user", JVal.str "hi"⟩, ⟨"assistant", JVal.str "Sorry - blocked by guardrails"⟩] = []
    ∧ sanitizePass [] [⟨"assistant", JVal.str "blocked by guardrails"⟩] = [] := by
  refine ⟨?_, ?_, rfl, rfl⟩
  · intro blocked raw m hm
    exact (sanitizePass_ok blocked raw m hm).2.2
  · intro blocked c m hg
    have hassist : (m.role == "assistant") = true := by
      unfold looksLikeGuardrailNotice at hg
      exact ((by simpa using hg :
        (m.role == "assistant") = true ∧ _)).1
    have hrole : m.role = "assistant" := eq_of_beq hassist
    have hnsys : (m.role == "system") = false := by rw [hrole]; rfl
    have hnblocked : isBlockedUser blocked m = false := by
      unfold isBlockedUser
      rw [hrole]
      rfl
    constructor
    · rintro ⟨last, hl, hu⟩
      unfold cleanStep
      rw [if_neg (by simp [hnsys]), if_neg (by simp [hnblocked]), if_pos hg]
      simp only [hl]
      rw [if_pos (by rw [hu]; rfl)]
    · intro hnone
      unfold cleanStep
      rw [if_neg (by simp [hnsys]), if_neg (by simp [hnblocked]), if_pos hg]
      cases hl : c.getLast? with
      | none => rfl
      | some last =>
        simp only []
        rw [if_neg (by simp [beq_eq_false_iff_ne.mpr (hnone last hl)])]

/-- Witness for C2: a guardrail notice following a user turn pops that user
turn (here emptying the accumulator), by the pairing rule of the claim. -/
theorem claim2_witness :
    cleanStep [] [⟨"user", JVal.str "hi"⟩] ⟨"assistant", JVal.str "blocked by guardrails"⟩ = [] :=
  (claim2_guardrail_notice_pairing.2.1 [] [⟨"user", JVal.str "hi"⟩]
      ⟨"assistant", JVal.str "blocked by guardrails"⟩ (by decide)).1
    ⟨⟨"user", JVal.str "hi"⟩, rfl, rfl⟩

/-- C3: the window keeps at most 16 entries, is a suffix of the cleaned
sequence (original order, oldest dropped first), equals exactly the last 16
cleaned entries whenever more than 16 survive cleaning, and is precisely what
the input is formatted from. -/
theorem claim3_window_last16 (raw : List ChatMessage) (blocked : List String) :
    (windowTo16 (sanitizePass blocked raw)).length ≤ 16
    ∧ windowTo16 (sanitizePass blocked raw) <:+ sanitizePass blocked raw
    ∧ (16 < (sanitizePass blocked raw).length →
        windowTo16 (sanitizePass blocked raw)
          = (sanitizePass blocked raw).drop ((sanitizePass blocked raw).length - 16))
    ∧ (buildModelInput raw blocked).input = formatInput (windowTo16 (sanitizePass blocked raw)) := by
  obtain ⟨h1, h2, h3⟩ := windowTo16_spec (sanitizePass blocked raw)
  exact ⟨h1, h2, h3, rfl⟩

/-- Witness for C3: on 20 plain alternating user/assistant messages the window
is exactly the last 16 cleaned entries (the oldest 4 dropped). -/
theorem claim3_witness :
    windowTo16 (sanitizePass [] exHistory20)
      = (sanitizePass [] exHistory20).drop ((sanitizePass [] exHistory20).length - 16) :=
  (claim3_window_last16 exHistory20 []).2.2.1 (by decide)

/-- C4: the input of `buildModelInput` is exactly what the spec's formatting
description produces on the windowed sequence: a lone user entry passes its
content through verbatim, otherwise user/assistant entries are rendered with
capitalized-role prefixes, other roles are dropped, and the renderings are
joined by blank lines; an empty history yields the empty input, and the two
concrete formatting examples of the spec hold. -/
theorem claim4_input_formatting (raw : List ChatMessage) (blocked : List String) :
    (buildModelInput raw blocked).input = formatInputSpec (windowTo16 (sanitizePass blocked raw))
    ∧ (∀ b, (buildModelInput [] b).input = JVal.str "")
    ∧ (buildModelInput [⟨"user", JVal.str "Hello"⟩] []).input = JVal.str "Hello"
    ∧ (buildModelInput [⟨"user", JVal.str "Hi"⟩, ⟨"assistant", JVal.str "Hello!"⟩] []).input
        = JVal.str "User: Hi\n\nAssistant: Hello!" :=
  ⟨formatInput_eq_spec _, fun _ => rfl, rfl, rfl⟩

theorem typeTagTest_not_null {t : String} {it : JVal} (h : it ≠ JVal.null) :
    typeTagTest t it = Except.ok (isTypeTag t it) := by
  cases it with
  | null => exact absurd rfl h
  | bool b => rfl
  | num n => rfl
  | str s => rfl
  | arr xs => rfl
  | obj fs => rfl

theorem findE_ok_find? (t : String) :
    ∀ (items : List JVal) (r : Option JVal),
      findE (typeTagTest t) items = Except.ok r → List.find? (isTypeTag t) items = r := by
  intro items
  induction items with
  | nil =>
    intro r h
    rw [← Except.ok.inj h]
    rfl
  | cons it rest ih =>
    intro r h
    by_cases hnull : it = JVal.null
    · subst hnull
      unfold findE at h
      simp only [show typeTagTest t JVal.null = Except.error () from rfl] at h
      exact Except.noConfusion h
    · unfold findE at h
      simp only [typeTagTest_not_null hnull] at h
      cases hb : isTypeTag t it with
      | true =>
        simp only [hb] at h
        rw [List.find?_cons_of_pos _ hb]
        exact Except.ok.inj h
      | false =>
        simp only [hb] at h
        rw [List.find?_cons_of_neg _ (by simp [hb])]
        exact ih r h

theorem extractText_object (v : JVal) (hobj : typeofObject v = true) (htr : jvTruthy v = true) :
    extractText v
      = (match structuredText v with
         | Except.error e => Except.error e
         | Except.ok (some t) => Except.ok t
         | Except.ok none =>
           Except.ok ((fallbackChainSpec v).getD (JVal.str parseErrorSentinel))) := by
  have main : ∀ w : JVal,
      (match structuredText w with
       | Except.error e => Except.error e
       | Except.ok (some t) => Except.ok t
       | Except.ok none =>
         Except.ok
           (match truthyField w "response" with
            | some r => r
            | none =>
              match truthyField w "content" with
              | some r => r
              | none =>
                match choicesText w with
                | some r => r
                | none =>
                  match resultResponseText w with
                  | some r => r
                  | none => JVal.str parseErrorSentinel))
        = (match structuredText w with
           | Except.error e => Except.error e
           | Except.ok (some t) => Except.ok t
           | Except.ok none =>
             Except.ok ((fallbackChainSpec w).getD (JVal.str parseErrorSentinel))) := by
    intro w
    cases structuredText w with
    | error e => rfl
    | ok o =>
      cases o with
      | some t => rfl
      | none =>
        unfold fallbackChainSpec
        cases truthyField w "response" <;> cases truthyField w "content" <;>
          cases choicesText w <;> cases resultResponseText w <;> rfl
  cases v with
  | str s => simp [typeofObject] at hobj
  | null => simp [jvTruthy] at htr
  | bool b => simp [typeofObject] at hobj
  | num n => simp [typeofObject] at hobj
  | arr xs =>
    rw [show extractText (JVal.arr xs)
        = (match structuredText (JVal.arr xs) with
           | Except.error e => Except.error e
           | Except.ok (some t) => Except.ok t
           | Except.ok none =>
             Except.ok
               (match truthyField (JVal.arr xs) "response" with
                | some r => r
                | none =>
                  match truthyField (JVal.arr xs) "content" with
                  | some r => r
                  | none =>
                    match choicesText (JVal.arr xs) with
                    | some r => r
                    | none =>
                      match resultResponseText (JVal.arr xs) with
                      | some r => r
                      | none => JVal.str parseErrorSentinel)) from rfl]
    exact main (JVal.arr xs)
  | obj fs =>
    rw [show extractText (JVal.obj fs)
        = (match structuredText (JVal.obj fs) with
           | Except.error e => Except.error e
           | Except.ok (some t) => Except.ok t
           | Except.ok none =>
             Except.ok
               (match truthyField (JVal.obj fs) "response" with
                | some r => r
                | none =>
                  match truthyField (JVal.obj fs) "content" with
                  | some r => r
                  | none =>
                    match choicesText (JVal.obj fs) with
                    | some r => r
                    | none =>
                      match resultResponseText (JVal.obj fs) with
                      | some r => r
                      | none => JVal.str parseErrorSentinel)) from rfl]
    exact main (JVal.obj fs)

/-- C6 counterexample: at an object whose `output` array holds a null element
before a well-formed message item, the claim's described resolution (the
first `output` element whose `type` is "message", then the first
"output_text" content element, returning its non-empty text) yields "answer",
but the program's find callback throws a TypeError reading `.type` off the
null element, so extraction returns nothing at all. -/
theorem claim6_counterexample :
    structuredTextSpec exNullStructuredResp = some (JVal.str "answer")
    ∧ extractText exNullStructuredResp = Except.error ()
    ∧ extractText exNullStructuredResp ≠ Except.ok (JVal.str "answer") := by
  refine ⟨rfl, rfl, fun h => ?_⟩
  rw [show extractText exNullStructuredResp = Except.error () from rfl] at h
  exact Except.noConfusion h

/-- C6 amended: extraction returns a plain string as-is. On a truthy object
it first runs the structured `output`-envelope path; that path throws a
TypeError (propagating to the caller) when a find callback meets a null
array element before a match, and a find that completes returns exactly the
first element whose `type` field matches. Only when the structured path
completes without finding truthy text does extraction fall back, in this
exact order, to `resp.response`, `resp.content`,
`resp.choices[0].message.content`, `resp.result.response`, returning the
first truthy value. -/
theorem claim6_extraction_order :
    (∀ s, extractText (JVal.str s) = Except.ok (JVal.str s))
    ∧ (∀ v t, typeofObject v = true → jvTruthy v = true →
        structuredText v = Except.ok (some t) → extractText v = Except.ok t)
    ∧ (∀ v, typeofObject v = true → jvTruthy v = true →
        structuredText v = Except.ok none →
        extractText v = Except.ok ((fallbackChainSpec v).getD (JVal.str parseErrorSentinel)))
    ∧ (∀ v e, typeofObject v = true → jvTruthy v = true →
        structuredText v = Except.error e → extractText v = Except.error e)
    ∧ (∀ t items r, findE (typeTagTest t) items = Except.ok r →
        List.find? (isTypeTag t) items = r) := by
  refine ⟨fun s => rfl, ?_, ?_, ?_, fun t items r h => findE_ok_find? t items r h⟩
  · intro v t hobj htr hs
    rw [extractText_object v hobj htr, hs]
  · intro v hobj htr hs
    rw [extractText_object v hobj htr, hs]
  · intro v e hobj htr hs
    rw [extractText_object v hobj htr, hs]

/-- Witness for C6 (amended): the structured envelope resolves to its output
text, a legacy response-field envelope resolves through the fallback chain,
and a null element in `output` makes extraction propagate the thrown
TypeError. -/
theorem claim6_witness :
    extractText exStructuredResp = Except.ok (JVal.str "answer")
    ∧ extractText exLegacyResp = Except.ok (JVal.str "legacy")
    ∧ extractText exNullOnly = Except.error () := by
  refine ⟨?_, ?_, ?_⟩
  · exact claim6_extraction_order.2.1 exStructuredResp (JVal.str "answer") rfl rfl rfl
  · rw [claim6_extraction_order.2.2.1 exLegacyResp rfl rfl rfl]
    rfl
  · exact claim6_extraction_order.2.2.2.1 exNullOnly () rfl rfl rfl

/-- C7 counterexample: extraction does fail — at an object whose `output`
array holds only a null element, the find callback throws a TypeError
instead of returning the sentinel — and a non-string, non-object result (the
number 42) finds no text by any step yet yields the empty string, not the
sentinel. -/
theorem claim7_counterexample :
    extractText (JVal.num 42) = Except.ok (JVal.str "")
    ∧ JVal.str "" ≠ JVal.str parseErrorSentinel
    ∧ extractText exNullOnly = Except.error ()
    ∧ extractText exNullOnly ≠ Except.ok (JVal.str parseErrorSentinel) := by
  refine ⟨rfl, fun h => ?_, rfl, fun h => ?_⟩
  · injection h with hs
    exact absurd hs (by decide)
  · rw [show extractText exNullOnly = Except.error () from rfl] at h
    exact Except.noConfusion h

/-- C7 amended: extraction can throw — a null element met by the structured
path's find callbacks raises a TypeError that escapes to the caller (see the
counterexample) — but on every input where it does return, its value is: the
sentinel for a truthy object-typed result in which no resolution step finds
text; the string itself for a plain string (see C6); and the empty string
for any other result (null, boolean, number), never the sentinel there. -/
theorem claim7_extraction_sentinel_amended (v : JVal) :
    (typeofObject v = true → jvTruthy v = true → structuredText v = Except.ok none →
      fallbackChainSpec v = none →
      extractText v = Except.ok (JVal.str parseErrorSentinel))
    ∧ ((∀ s, v ≠ JVal.str s) → (typeofObject v = false ∨ jvTruthy v = false) →
        extractText v = Except.ok (JVal.str "")) := by
  constructor
  · intro hobj htr hs hf
    rw [extractText_object v hobj htr, hs, hf]
    rfl
  · intro hnstr hor
    cases v with
    | str s => exact absurd rfl (hnstr s)
    | null => rfl
    | bool b => cases b <;> rfl
    | num n => simp [extractText, typeofObject, Bool.and_false]
    | arr xs => rcases hor with h | h <;> simp [typeofObject, jvTruthy] at h
    | obj fs => rcases hor with h | h <;> simp [typeofObject, jvTruthy] at h

/-- Witness for C7 (amended): the empty object finds no text anywhere and
extraction returns the sentinel. -/
theorem claim7_witness : extractText (JVal.obj []) = Except.ok (JVal.str parseErrorSentinel) :=
  (claim7_extraction_sentinel_amended (JVal.obj [])).1 rfl rfl rfl rfl

/-- C8 counterexample: a user message whose content is the number 42 is not
skipped: it flows through to the model input (returned verbatim by the
single-user-message branch), so the output differs from the output on the
history with the malformed entry deleted. -/
theorem claim8_counterexample :
    (buildModelInput [malformedMsg] []).input = JVal.num 42
      ∧ buildModelInput [malformedMsg] [] ≠ buildModelInput [] [] := by
  refine ⟨rfl, fun h => ?_⟩
  have hi := congrArg ModelInput.input h
  have h1 : (buildModelInput [malformedMsg] []).input = JVal.num 42 := rfl
  have h2 : (buildModelInput [] []).input = JVal.str "" := rfl
  rw [h1, h2] at hi
  exact JVal.noConfusion hi

/-- C8 amended: `buildModelInput` is a pure total function of its two
arguments (it always returns the structured result below, for any history
including malformed entries), but malformed entries are passed through
rather than skipped: a non-system message whose content is not a string
always takes the append branch of the cleaning loop, because the block-list
and guardrail tests only apply to string contents. -/
theorem claim8_totality_amended :
    (∀ (raw : List ChatMessage) (blocked : List String),
        buildModelInput raw blocked
          = { instructions := modelInstructions
            , input := formatInput (windowTo16 (sanitizePass blocked raw)) })
    ∧ (∀ (blocked : List String) (c : List ChatMessage) (m : ChatMessage),
        (∀ s, m.content ≠ JVal.str s) → m.role ≠ "system" →
          cleanStep blocked c m = c ++ [m]) := by
  refine ⟨fun raw blocked => rfl, ?_⟩
  intro blocked c m hns hrole
  have hb1 : (m.role == "system") = false := beq_eq_false_iff_ne.mpr hrole
  have hb2 : isBlockedUser blocked m = false := by
    unfold isBlockedUser
    cases hc : m.content with
    | str s => exact absurd hc (hns s)
    | null => simp
    | bool b => simp
    | num n => simp
    | arr xs => simp
    | obj fs => simp
  have hb3 : looksLikeGuardrailNotice m = false := by
    unfold looksLikeGuardrailNotice
    cases hc : m.content with
    | str s => exact absurd hc (hns s)
    | null => simp
    | bool b => simp
    | num n => simp
    | arr xs => simp
    | obj fs => simp
  unfold cleanStep
  rw [if_neg (by simp [hb1]), if_neg (by simp [hb2]), if_neg (by simp [hb3])]

/-- Witness for C8 (amended): the malformed user message (content 42) is
appended, not skipped. -/
theorem claim8_witness : cleanStep [] [] malformedMsg = [malformedMsg] :=
  claim8_totality_amended.2 [] [] malformedMsg (fun s h => JVal.noConfusion h) (by decide)

/-- C10: a message whose role is none of system, user, assistant is appended
to the cleaned sequence, counts toward the 16-entry window (concretely, 16
tool-role messages displace an older user message from the window), renders
as the empty string, and contributes no text to the input. -/
theorem claim10_other_roles_windowed :
    (∀ (blocked : List String) (c : List ChatMessage) (m : ChatMessage),
        m.role ≠ "system" → m.role ≠ "user" → m.role ≠ "assistant" →
          cleanStep blocked c m = c ++ [m])
    ∧ (∀ m : ChatMessage, m.role ≠ "user" → m.role ≠ "assistant" → renderMsg m = "")
    ∧ windowTo16 (sanitizePass [] (oldUserMsg :: List.replicate 16 toolMsg))
        = List.replicate 16 toolMsg
    ∧ (∀ m ∈ windowTo16 (sanitizePass [] (oldUserMsg :: List.replicate 16 toolMsg)),
        m.role = "tool")
    ∧ (buildModelInput (oldUserMsg :: List.replicate 16 toolMsg) []).input = JVal.str "" := by
  refine ⟨?_, ?_, rfl, ?_, rfl⟩
  · intro blocked c m h1 h2 h3
    have hb1 : (m.role == "system") = false := beq_eq_false_iff_ne.mpr h1
    have hb2 : isBlockedUser blocked m = false := by
      unfold isBlockedUser
      rw [beq_eq_false_iff_ne.mpr h2]
      rfl
    have hb3 : looksLikeGuardrailNotice m = false := by
      unfold looksLikeGuardrailNotice
      rw [beq_eq_false_iff_ne.mpr h3]
      rfl
    unfold cleanStep
    rw [if_neg (by simp [hb1]), if_neg (by simp [hb2]), if_neg (by simp [hb3])]
  · intro m h1 h2
    exact renderMsg_empty (beq_eq_false_iff_ne.mpr h1) (beq_eq_false_iff_ne.mpr h2)
  · intro m hm
    have heq : windowTo16 (sanitizePass [] (oldUserMsg :: List.replicate 16 toolMsg))
        = List.replicate 16 toolMsg := rfl
    rw [heq] at hm
    rw [List.eq_of_mem_replicate hm]
    rfl

/-- Witness for C10: the tool-role message is appended by the cleaning loop
and renders to the empty string. -/
theorem claim10_witness :
    cleanStep [] [] toolMsg = [toolMsg] ∧ renderMsg toolMsg = "" :=
  ⟨claim10_other_roles_windowed.1 [] [] toolMsg (by decide) (by decide) (by decide),
   claim10_other_roles_windowed.2.1 toolMsg (by decide) (by decide)⟩

theorem getField_eq_some_obj {v : JVal} {k : String} {x : JVal}
    (h : v.getField k = some x) : ∃ fs, v = JVal.obj fs := by
  cases v with
  | obj fs => exact ⟨fs, rfl⟩
  | null => cases h
  | bool b => cases h
  | num n => cases h
  | str s => cases h
  | arr xs => cases h

theorem getField_obj_truthy {g : JVal} {k : String} {x : JVal}
    (h : g.getField k = some x) : jvTruthy g = true := by
  obtain ⟨fs, rfl⟩ := getField_eq_some_obj h
  rfl

theorem matchEmbedded_some_ne_empty {msg s : String}
    (h : matchEmbedded msg = some s) : (msg == "") = false := by
  cases he : (msg == "") with
  | false => rfl
  | true =>
    have : msg = "" := eq_of_beq he
    subst this
    cases h

theorem classifyGatewayError_eq_some_iff (parse : String → Option JVal) (err : JVal) (g : JVal) :
    classifyGatewayError parse err = some g
      ↔ ∃ msg s p xs, err.getField "message" = some (JVal.str msg)
          ∧ matchEmbedded msg = some s ∧ parse s = some p
          ∧ p.getField "error" = some (JVal.arr xs) ∧ xs.head? = some g := by
  constructor
  · intro h
    cases err with
    | null => cases h
    | bool b => cases h
    | num n => cases h
    | str s => cases h
    | arr xs => cases h
    | obj fs =>
      unfold classifyGatewayError at h
      cases hm : (JVal.obj fs).getField "message" with
      | none => simp only [hm] at h; cases h
      | some mv =>
        cases mv with
        | null => simp only [hm] at h; cases h
        | bool b => simp only [hm] at h; cases h
        | num n => simp only [hm] at h; cases h
        | arr ys => simp only [hm] at h; cases h
        | obj gs => simp only [hm] at h; cases h
        | str msg =>
          simp only [hm] at h
          split at h
          · cases h
          · cases hme : matchEmbedded msg with
            | none => simp only [hme] at h; cases h
            | some s =>
              simp only [hme] at h
              cases hp : parse s with
              | none => simp only [hp] at h; cases h
              | some p =>
                simp only [hp] at h
                cases herr : p.getField "error" with
                | none => simp only [herr] at h; cases h
                | some ev =>
                  cases ev with
                  | null => simp only [herr] at h; cases h
                  | bool b => simp only [herr] at h; cases h
                  | num n => simp only [herr] at h; cases h
                  | str s2 => simp only [herr] at h; cases h
                  | obj gs => simp only [herr] at h; cases h
                  | arr xs =>
                    simp only [herr] at h
                    exact ⟨msg, s, p, xs, rfl, hme, hp, herr, h⟩
  · rintro ⟨msg, s, p, xs, hm, hme, hp, herr, hhead⟩
    obtain ⟨fs, rfl⟩ := getField_eq_some_obj hm
    unfold classifyGatewayError
    simp only [hm, hme, hp, herr, matchEmbedded_some_ne_empty hme, Bool.false_eq_true, if_false]
    exact hhead

theorem policyCond_iff (parse : String → Option JVal) (err : JVal) (code : Int) :
    policyCond parse err code
      ↔ ∃ g, classifyGatewayError parse err = some g
          ∧ g.getField "code" = some (JVal.num code) := by
  constructor
  · rintro ⟨msg, s, p, g, rest, h1, h2, h3, h4, h5⟩
    exact ⟨g, (classifyGatewayError_eq_some_iff parse err g).mpr
      ⟨msg, s, p, g :: rest, h1, h2, h3, h4, rfl⟩, h5⟩
  · rintro ⟨g, hc, hcode⟩
    obtain ⟨msg, s, p, xs, h1, h2, h3, h4, h5⟩ :=
      (classifyGatewayError_eq_some_iff parse err g).mp hc
    cases xs with
    | nil => cases h5
    | cons a t =>
      have ha : a = g := Option.some.inj h5
      subst ha
      exact ⟨msg, s, p, a, t, h1, h2, h3, h4, hcode⟩

theorem policyCond_code_eq (parse : String → Option JVal) (err : JVal) {g : JVal}
    (hc : classifyGatewayError parse err = some g) (code : Int)
    (hpc : policyCond parse err code) : g.getField "code" = some (JVal.num code) := by
  obtain ⟨g', hg', hcode'⟩ := (policyCond_iff parse err code).mp hpc
  rw [hc] at hg'
  rw [Option.some.inj hg']
  exact hcode'

theorem policyCond_of_none (parse : String → Option JVal) (err : JVal)
    (hc : classifyGatewayError parse err = none) (code : Int) :
    ¬ policyCond parse err code := by
  intro hpc
  obtain ⟨g', hg', _⟩ := (policyCond_iff parse err code).mp hpc
  rw [hc] at hg'
  cases hg'

theorem handleCatch_cases (parse : String → Option JVal) (err : JVal) :
    handleCatch parse err = promptBlockedResp
      ∨ handleCatch parse err = responseBlockedResp
      ∨ handleCatch parse err = genericErrorResp := by
  unfold handleCatch
  repeat' split
  all_goals first
    | exact Or.inl rfl
    | exact Or.inr (Or.inl rfl)
    | exact Or.inr (Or.inr rfl)

/-- C5: the catch block answers 400/`prompt_blocked` exactly when the caught
error is an object whose string `message` field embeds a JSON fragment that
parses to a value whose `error` field is an array whose first element carries
code 2016; 400/`response_blocked` exactly when that code is 2017; and in
every other case (non-object error, missing or non-string message, absent or
unparseable embedded JSON, any other code) the generic 500 body. `parse`
stands for the `JSON.parse` builtin, returning `none` when it would throw, so
every failure path lands in a returned response. -/
theorem claim5_error_classification (parse : String → Option JVal) (err : JVal) :
    (handleCatch parse err = promptBlockedResp ↔ policyCond parse err 2016)
    ∧ (handleCatch parse err = responseBlockedResp ↔ policyCond parse err 2017)
    ∧ (¬ policyCond parse err 2016 → ¬ policyCond parse err 2017 →
        handleCatch parse err = genericErrorResp) := by
  have d1 : promptBlockedResp ≠ responseBlockedResp := by decide
  have d2 : promptBlockedResp ≠ genericErrorResp := by decide
  have d3 : responseBlockedResp ≠ genericErrorResp := by decide
  cases hc : classifyGatewayError parse err with
  | none =>
    have hgen : handleCatch parse err = genericErrorResp := by
      unfold handleCatch
      rw [hc]
    refine ⟨⟨?_, ?_⟩, ⟨?_, ?_⟩, fun _ _ => hgen⟩
    · intro h
      rw [hgen] at h
      exact absurd h.symm d2
    · intro hpc
      exact absurd hpc (policyCond_of_none parse err hc 2016)
    · intro h
      rw [hgen] at h
      exact absurd h.symm d3
    · intro hpc
      exact absurd hpc (policyCond_of_none parse err hc 2017)
  | some g =>
    have hno : ∀ code : Int, g.getField "code" ≠ some (JVal.num code) →
        ¬ policyCond parse err code := by
      intro code hne hpc
      exact hne (policyCond_code_eq parse err hc code hpc)
    cases hcode : g.getField "code" with
    | none =>
      have hgen : handleCatch parse err = genericErrorResp := by
        unfold handleCatch
        simp only [hc]
        cases htr : jvTruthy g
        · rw [if_neg (by simp [htr])]
        · simp [hcode]
      have hn16 := hno 2016 (by rw [hcode]; exact fun h => Option.noConfusion h)
      have hn17 := hno 2017 (by rw [hcode]; exact fun h => Option.noConfusion h)
      refine ⟨⟨?_, fun hpc => absurd hpc hn16⟩, ⟨?_, fun hpc => absurd hpc hn17⟩,
        fun _ _ => hgen⟩
      · intro h
        rw [hgen] at h
        exact absurd h.symm d2
      · intro h
        rw [hgen] at h
        exact absurd h.symm d3
    | some cv =>
      have htr : jvTruthy g = true := getField_obj_truthy hcode
      have hbranch : handleCatch parse err
          = (match g.getField "code" with
             | some (JVal.num n) =>
               if n == 2016 then promptBlockedResp
               else if n == 2017 then responseBlockedResp
               else genericErrorResp
             | _ => genericErrorResp) := by
        unfold handleCatch
        simp only [hc]
        rw [if_pos htr]
      cases cv with
      | num n =>
        by_cases h16 : n = 2016
        · subst h16
          have hres : handleCatch parse err = promptBlockedResp := by
            rw [hbranch]
            simp only [hcode]
            rfl
          have hcond : policyCond parse err 2016 :=
            (policyCond_iff parse err 2016).mpr ⟨g, hc, hcode⟩
          have hn17 : ¬ policyCond parse err 2017 := by
            refine hno 2017 ?_
            rw [hcode]
            intro hq
            have := JVal.num.inj (Option.some.inj hq)
            omega
          refine ⟨⟨fun _ => hcond, fun _ => hres⟩, ⟨?_, fun hpc => absurd hpc hn17⟩,
            fun hn _ => absurd hcond hn⟩
          · intro h
            rw [hres] at h
            exact absurd h d1
        · by_cases h17 : n = 2017
          · subst h17
            have hres : handleCatch parse err = responseBlockedResp := by
              rw [hbranch]
              simp only [hcode]
              rfl
            have hcond : policyCond parse err 2017 :=
              (policyCond_iff parse err 2017).mpr ⟨g, hc, hcode⟩
            have hn16 : ¬ policyCond parse err 2016 := by
              refine hno 2016 ?_
              rw [hcode]
              intro hq
              have := JVal.num.inj (Option.some.inj hq)
              omega
            refine ⟨⟨?_, fun hpc => absurd hpc hn16⟩, ⟨fun _ => hcond, fun _ => hres⟩,
              fun _ hn => absurd hcond hn⟩
            · intro h
              rw [hres] at h
              exact absurd h.symm d1
          · have hres : handleCatch parse err = genericErrorResp := by
              rw [hbranch]
              simp only [hcode]
              rw [if_neg (by simp [h16]), if_neg (by simp [h17])]
            have hn16 : ¬ policyCond parse err 2016 := by
              refine hno 2016 ?_
              rw [hcode]
              intro hq
              have := JVal.num.inj (Option.some.inj hq)
              omega
            have hn17 : ¬ policyCond parse err 2017 := by
              refine hno 2017 ?_
              rw [hcode]
              intro hq
              have := JVal.num.inj (Option.some.inj hq)
              omega
            refine ⟨⟨?_, fun hpc => absurd hpc hn16⟩, ⟨?_, fun hpc => absurd hpc hn17⟩,
              fun _ _ => hres⟩
            · intro h
              rw [hres] at h
              exact absurd h.symm d2
            · intro h
              rw [hres] at h
              exact absurd h.symm d3
      | null =>
        have hgen : handleCatch parse err = genericErrorResp := by
          rw [hbranch]
          simp only [hcode]
        have hn16 := hno 2016 (by rw [hcode]; intro hq; cases Option.some.inj hq)
        have hn17 := hno 2017 (by rw [hcode]; intro hq; cases Option.some.inj hq)
        refine ⟨⟨?_, fun hpc => absurd hpc hn16⟩, ⟨?_, fun hpc => absurd hpc hn17⟩,
          fun _ _ => hgen⟩
        · intro h
          rw [hgen] at h
          exact absurd h.symm d2
        · intro h
          rw [hgen] at h
          exact absurd h.symm d3
      | bool b =>
        have hgen : handleCatch parse err = genericErrorResp := by
          rw [hbranch]
          simp only [hcode]
        have hn16 := hno 2016 (by rw [hcode]; intro hq; cases Option.some.inj hq)
        have hn17 := hno 2017 (by rw [hcode]; intro hq; cases Option.some.inj hq)
        refine ⟨⟨?_, fun hpc => absurd hpc hn16⟩, ⟨?_, fun hpc => absurd hpc hn17⟩,
          fun _ _ => hgen⟩
        · intro h
          rw [hgen] at h
          exact absurd h.symm d2
        · intro h
          rw [hgen] at h
          exact absurd h.symm d3
      | str s2 =>
        have hgen : handleCatch parse err = genericErrorResp := by
          rw [hbranch]
          simp only [hcode]
        have hn16 := hno 2016 (by rw [hcode]; intro hq; cases Option.some.inj hq)
        have hn17 := hno 2017 (by rw [hcode]; intro hq; cases Option.some.inj hq)
        refine ⟨⟨?_, fun hpc => absurd hpc hn16⟩, ⟨?_, fun hpc => absurd hpc hn17⟩,
          fun _ _ => hgen⟩
        · intro h
          rw [hgen] at h
          exact absurd h.symm d2
        · intro h
          rw [hgen] at h
          exact absurd h.symm d3
      | arr ys =>
        have hgen : handleCatch parse err = genericErrorResp := by
          rw [hbranch]
          simp only [hcode]
        have hn16 := hno 2016 (by rw [hcode]; intro hq; cases Option.some.inj hq)
        have hn17 := hno 2017 (by rw [hcode]; intro hq; cases Option.some.inj hq)
        refine ⟨⟨?_, fun hpc => absurd hpc hn16⟩, ⟨?_, fun hpc => absurd hpc hn17⟩,
          fun _ _ => hgen⟩
        · intro h
          rw [hgen] at h
          exact absurd h.symm d2
        · intro h
          rw [hgen] at h
          exact absurd h.symm d3
      | obj gs =>
        have hgen : handleCatch parse err = genericErrorResp := by
          rw [hbranch]
          simp only [hcode]
        have hn16 := hno 2016 (by rw [hcode]; intro hq; cases Option.some.inj hq)
        have hn17 := hno 2017 (by rw [hcode]; intro hq; cases Option.some.inj hq)
        refine ⟨⟨?_, fun hpc => absurd hpc hn16⟩, ⟨?_, fun hpc => absurd hpc hn17⟩,
          fun _ _ => hgen⟩
        · intro h
          rw [hgen] at h
          exact absurd h.symm d2
        · intro h
          rw [hgen] at h
          exact absurd h.symm d3

/-- Witness for C5: a concrete caught error carrying an embedded code-2016
gateway JSON fragment is classified as the prompt-blocked 400 response. -/
theorem claim5_witness : handleCatch wParse wErr = promptBlockedResp :=
  (claim5_error_classification wParse wErr).1.mpr
    ⟨wMessage, wJson, wParsed, wGatewayElem, [], rfl, rfl, rfl, rfl, rfl⟩

/-- C9: because `AI_GATEWAY_ID` is the fixed non-empty string
`"new-gateway"`, every 400 policy-block response produced by the catch block
reports `usingGateway = true` and carries one of the two gateway-configured
`details` texts; the non-gateway `details` variants are unreachable. -/
theorem claim9_gateway_always_configured (parse : String → Option JVal) (err : JVal) :
    (handleCatch parse err).status = 400 →
      (handleCatch parse err).usingGateway = some true
      ∧ ((handleCatch parse err).details = some promptBlockedDetailsGateway
          ∨ (handleCatch parse err).details = some responseBlockedDetailsGateway)
      ∧ (handleCatch parse err).details ≠ some promptBlockedDetailsPlain
      ∧ (handleCatch parse err).details ≠ some responseBlockedDetailsPlain := by
  intro h400
  rcases handleCatch_cases parse err with hcase | hcase | hcase
  · rw [hcase]
    exact ⟨rfl, Or.inl rfl, by decide, by decide⟩
  · rw [hcase]
    exact ⟨rfl, Or.inr rfl, by decide, by decide⟩
  · rw [hcase] at h400
    exact absurd h400 (by decide)

/-- Witness for C9: the concrete code-2016 error produces a 400 response, and
it indeed reports the gateway as configured with the gateway-variant text. -/
theorem claim9_witness :
    (handleCatch wParse wErr).usingGateway = some true
      ∧ ((handleCatch wParse wErr).details = some promptBlockedDetailsGateway
          ∨ (handleCatch wParse wErr).details = some responseBlockedDetailsGateway)
      ∧ (handleCatch wParse wErr).details ≠ some promptBlockedDetailsPlain
      ∧ (handleCatch wParse wErr).details ≠ some responseBlockedDetailsPlain :=
  claim9_gateway_always_configured wParse wErr (by decide)
